import Mathlib

/-!
# Verification of the IHJS component-tree rendering model

Shallow embedding of `src/ihjs/components/base.py` (`Component`),
`src/ihjs/components/typography.py` (`Text`, `Heading`) and the helper
constructors in `src/ihjs/__init__.py`, together with proofs of the
spec's testable properties about `render`.

Modelling notes, traced from the Python source:

* `Component` is a pydantic model with fields `tag : str = "div"`,
  `children : List[Component] = []`, `class_name : Optional[str]` with
  wire alias `"class"`, and `extra="allow"` so arbitrary extra keyword
  attributes are carried along.  We embed the three concrete classes as a
  single inductive with three variants (`node`, `text`, `heading`); the
  extra attribute bag is a list of key/value string pairs in insertion
  order, after the declared fields, as `model_dump` orders them.
* `Component.render` dumps attributes with `by_alias=True` and
  `exclude={"children","tag"}`; `Text.render` (inherited unchanged by
  `Heading`) dumps with `exclude={"children","tag","content"}` and *no*
  `by_alias`, so there the `class_name` field keeps its Python name.
  `Heading` adds the declared field `level : int = 1`, which is not
  excluded, so `Text.render` serializes it too.
* Attribute serialization keeps pairs whose value is not `None`, formats
  each as `k="v"` and joins with single spaces.  The surrounding markup
  is the f-string `<{tag} {props}>{inner}</{tag}>` — note the literal
  space between the tag and the (possibly empty) props string.
* `Heading.__init__(content, level=1, **kwargs)` calls
  `super().__init__(content=content, tag=f"h{level}", **kwargs)`: the
  `level` *argument* only shapes the tag and is never forwarded as a
  field, so the `level` field always holds its default `1`; passing
  `tag=` explicitly raises `TypeError` (duplicate keyword) at the call
  site.  `Text.__init__(content, **kwargs)` makes `content` a required
  argument: omitting it is a `TypeError` at construction time.
-/

namespace IHJS

/-- The component tree.  `node` embeds a plain `Component`, `text` a
`Text`, and `heading` a `Heading`.  Field order mirrors the pydantic
declaration order (`tag`, `children`, `class_name`, then the subclass
fields `content` and `level`); `extra` is the insertion-ordered bag of
extra attributes admitted by `extra="allow"`. -/
inductive Component where
  | node (tag : String) (children : List Component)
      (class_name : Option String) (extra : List (String × String)) : Component
  | text (tag : String) (children : List Component)
      (class_name : Option String) (extra : List (String × String))
      (content : String) : Component
  | heading (tag : String) (children : List Component)
      (class_name : Option String) (extra : List (String × String))
      (content : String) (level : Int) : Component

/-- One attribute entry: `f'{k}="{v}"'` when the value is set, skipped
when it is `None` (the `if v is not None` filter in both renders). -/
def serializeProp (kv : String × Option String) : Option String :=
  kv.2.map (fun v => kv.1 ++ "=\"" ++ v ++ "\"")

/-- Python `" ".join(...)` over the serialized, `None`-filtered attribute
pairs. -/
def joinProps (ps : List (String × Option String)) : String :=
  String.intercalate " " (ps.filterMap serializeProp)

/-- Attribute dump of `Component.render`:
`model_dump(exclude={"children","tag"}, by_alias=True)` — the
`class_name` field appears under its alias `class`, then the extras. -/
def dumpNode (class_name : Option String) (extra : List (String × String)) :
    List (String × Option String) :=
  ("class", class_name) :: extra.map (fun kv => (kv.1, some kv.2))

/-- Attribute dump of `Text.render`:
`model_dump(exclude={"children","tag","content"})` — no `by_alias`, so
the field keeps the name `class_name`. -/
def dumpText (class_name : Option String) (extra : List (String × String)) :
    List (String × Option String) :=
  ("class_name", class_name) :: extra.map (fun kv => (kv.1, some kv.2))

/-- Attribute dump seen by the inherited `Text.render` on a `Heading`:
as `dumpText`, plus the declared `level` field (an `int`, formatted by
`str`). -/
def dumpHeading (class_name : Option String) (level : Int)
    (extra : List (String × String)) : List (String × Option String) :=
  ("class_name", class_name) :: ("level", some (toString level)) ::
    extra.map (fun kv => (kv.1, some kv.2))

mutual

/-- Dynamic-dispatch `render`: `Component.render` for `node`,
`Text.render` for `text` and (inherited) `heading`.  Every branch
returns `f"<{tag} {props}>{inner}</{tag}>"`. -/
def Component.render : Component → String
  | .node tag children class_name extra =>
      "<" ++ tag ++ " " ++ joinProps (dumpNode class_name extra) ++ ">" ++
        renderList children ++ "</" ++ tag ++ ">"
  | .text tag _ class_name extra content =>
      "<" ++ tag ++ " " ++ joinProps (dumpText class_name extra) ++ ">" ++
        content ++ "</" ++ tag ++ ">"
  | .heading tag _ class_name extra content level =>
      "<" ++ tag ++ " " ++ joinProps (dumpHeading class_name level extra) ++ ">" ++
        content ++ "</" ++ tag ++ ">"

/-- Python `"".join([c.render() for c in self.children])`. -/
def renderList : List Component → String
  | [] => ""
  | c :: cs => Component.render c ++ renderList cs

end

/-- Errors a Python constructor call can raise before a node exists:
`TypeError` for a missing required argument, and `TypeError` for a
keyword supplied twice (as when `Heading.__init__` forwards its own
`tag=f"h{level}"` alongside a caller-supplied `tag`). -/
inductive ConstructError where
  | missingArgument (name : String) : ConstructError
  | duplicateArgument (name : String) : ConstructError

/-- A call `Component(tag=..., children=..., class_name=..., **extra)` —
every field has a default (`tag="div"`, `children=[]`,
`class_name=None`), so construction always succeeds.  `none` for an
argument means the keyword was omitted. -/
def mkComponent (tag : Option String) (class_name : Option String)
    (children : List Component) (extra : List (String × String)) : Component :=
  .node (tag.getD "div") children class_name extra

/-- Helper `div(**kwargs)` from `src/ihjs/__init__.py`: `Component(tag="div", **kwargs)`. -/
def div (class_name : Option String) (children : List Component)
    (extra : List (String × String)) : Component :=
  mkComponent (some "div") class_name children extra

/-- The `Text` value built by a successful `Text(content=..., **kwargs)`
call: `tag` defaults to `"span"`. -/
def mkText (content : String) (tag : Option String) (class_name : Option String)
    (children : List Component) (extra : List (String × String)) : Component :=
  .text (tag.getD "span") children class_name extra content

/-- The call `Text(content?, **kwargs)`: `content` is a required
argument of `Text.__init__`, so omitting it (`none`) is a `TypeError`
at the call site; otherwise construction succeeds. -/
def callText (content : Option String) (tag : Option String)
    (class_name : Option String) (children : List Component)
    (extra : List (String × String)) : Except ConstructError Component :=
  match content with
  | none => .error (.missingArgument "content")
  | some c => .ok (mkText c tag class_name children extra)

/-- The `Heading` value built by a successful
`Heading(content=..., level=..., **kwargs)` call: the tag is
`f"h{level}"`, and the `level` *field* stays at its pydantic default
`1` because `Heading.__init__` never forwards the `level` argument. -/
def mkHeading (content : String) (level : Int) (class_name : Option String)
    (children : List Component) (extra : List (String × String)) : Component :=
  .heading ("h" ++ toString level) children class_name extra content 1

/-- The call `Heading(content?, level=..., tag?, **kwargs)`: omitting
`content` is a `TypeError`; supplying `tag` collides with the
`tag=f"h{level}"` that `Heading.__init__` itself passes and is a
`TypeError` (duplicate keyword); `level` defaults to `1` when omitted. -/
def callHeading (content : Option String) (level : Option Int)
    (tag : Option String) (class_name : Option String)
    (children : List Component) (extra : List (String × String)) :
    Except ConstructError Component :=
  match content with
  | none => .error (.missingArgument "content")
  | some c =>
    match tag with
    | some _ => .error (.duplicateArgument "tag")
    | none => .ok (mkHeading c (level.getD 1) class_name children extra)

/-- Helper `heading(content, level=1, **kwargs)` from `src/ihjs/__init__.py`. -/
def heading (content : String) (level : Option Int) (class_name : Option String)
    (extra : List (String × String)) : Except ConstructError Component :=
  callHeading (some content) (some (level.getD 1)) none class_name [] extra

/-- The `tag` field of a node. -/
def tagOf : Component → String
  | .node tag _ _ _ => tag
  | .text tag _ _ _ _ => tag
  | .heading tag _ _ _ _ _ => tag

/-- The `level` field, present only on `Heading` nodes. -/
def levelOf : Component → Option Int
  | .heading _ _ _ _ _ level => some level
  | _ => none

/-- The attribute list each variant's `render` serializes (declared
fields minus the excluded ones, extras last), as `model_dump` produces
it. -/
def attrsOf : Component → List (String × Option String)
  | .node _ _ class_name extra => dumpNode class_name extra
  | .text _ _ class_name extra _ => dumpText class_name extra
  | .heading _ _ class_name extra _ level => dumpHeading class_name level extra

/-- The inner markup each variant splices between the tags: the
concatenated child renders for a generic node, the literal `content`
for `Text` and `Heading`. -/
def innerOf : Component → String
  | .node _ children _ _ => renderList children
  | .text _ _ _ _ content => content
  | .heading _ _ _ _ content _ => content

/-- Predicate: `token` occurs as a contiguous substring of `s`. -/
def containsToken (s token : String) : Prop :=
  token.data <:+: s.data

instance (s token : String) : Decidable (containsToken s token) :=
  inferInstanceAs (Decidable (token.data <:+: s.data))

/-- Predicate: `s` begins with `token`. -/
def beginsWith (s token : String) : Prop :=
  token.data <+: s.data

instance (s token : String) : Decidable (beginsWith s token) :=
  inferInstanceAs (Decidable (token.data <+: s.data))

/-- Predicate: `s` ends with `token`. -/
def endsWith (s token : String) : Prop :=
  token.data <:+ s.data

instance (s token : String) : Decidable (endsWith s token) :=
  inferInstanceAs (Decidable (token.data <:+ s.data))

/-- Concatenation of a list of strings, as Python `"".join`. -/
def concatAll : List String → String
  | [] => ""
  | s :: ss => s ++ concatAll ss

/-- Evaluate `f` over a list left to right, failing if any element
fails (the order in which the Python list comprehension runs the child
`render()` calls). -/
def optionMap (f : Component → Option String) : List Component → Option (List String)
  | [] => some []
  | c :: cs => do
      let s ← f c
      let rest ← optionMap f cs
      pure (s :: rest)

/-- Fuel-bounded evaluator for `render`, mirroring the Python call
tree: each recursive activation consumes one unit of fuel, and the
evaluation of a child list spends the remaining fuel on every child.
`none` means the budget was exhausted; termination of the Python
recursion is the statement that enough fuel always exists. -/
def renderFuel : Nat → Component → Option String
  | 0, _ => none
  | n + 1, .node tag children class_name extra => do
      let inners ← optionMap (renderFuel n) children
      pure ("<" ++ tag ++ " " ++ joinProps (dumpNode class_name extra) ++ ">" ++
        concatAll inners ++ "</" ++ tag ++ ">")
  | _ + 1, .text tag _ class_name extra content =>
      some ("<" ++ tag ++ " " ++ joinProps (dumpText class_name extra) ++ ">" ++
        content ++ "</" ++ tag ++ ">")
  | _ + 1, .heading tag _ class_name extra content level =>
      some ("<" ++ tag ++ " " ++ joinProps (dumpHeading class_name level extra) ++ ">" ++
        content ++ "</" ++ tag ++ ">")

mutual

/-- Nesting depth of a tree; the recursion depth `render` needs. -/
def heightC : Component → Nat
  | .node _ children _ _ => 1 + heightList children
  | .text _ _ _ _ _ => 1
  | .heading _ _ _ _ _ _ => 1

/-- Maximum height over a list of children. -/
def heightList : List Component → Nat
  | [] => 0
  | c :: cs => max (heightC c) (heightList cs)

end

/-! ## Helper lemmas -/

theorem heightC_pos (c : Component) : 0 < heightC c := by
  cases c <;> simp [heightC]

theorem heightC_le_of_mem {c : Component} {cs : List Component} (h : c ∈ cs) :
    heightC c ≤ heightList cs := by
  induction cs with
  | nil => cases h
  | cons c' cs' ih =>
    rcases List.mem_cons.mp h with h' | h'
    · subst h'; exact le_max_left _ _
    · exact le_trans (ih h') (le_max_right _ _)

theorem concatAll_map_render (cs : List Component) :
    concatAll (cs.map Component.render) = renderList cs := by
  induction cs with
  | nil => rfl
  | cons c cs' ih => simp [concatAll, renderList, ih]

theorem optionMap_renderFuel {n : Nat}
    (ih : ∀ c : Component, heightC c ≤ n → renderFuel n c = some c.render) :
    ∀ cs : List Component, heightList cs ≤ n →
      optionMap (renderFuel n) cs = some (cs.map Component.render) := by
  intro cs
  induction cs with
  | nil => intro _; rfl
  | cons c cs' ihl =>
    intro h
    have hm : max (heightC c) (heightList cs') ≤ n := by simpa [heightList] using h
    have h1 : heightC c ≤ n := le_trans (le_max_left _ _) hm
    have h2 : heightList cs' ≤ n := le_trans (le_max_right _ _) hm
    simp [optionMap, ih c h1, ihl h2]

theorem renderFuel_complete :
    ∀ (n : Nat) (c : Component), heightC c ≤ n → renderFuel n c = some c.render := by
  intro n
  induction n with
  | zero =>
    intro c hc
    exact absurd (lt_of_lt_of_le (heightC_pos c) hc) (lt_irrefl 0)
  | succ n ih =>
    intro c hc
    cases c with
    | text tag cs cn ex content => rfl
    | heading tag cs cn ex content level => rfl
    | node tag cs cn ex =>
      have hcs : heightList cs ≤ n := by
        have h1 : 1 + heightList cs ≤ n + 1 := by simpa [heightC] using hc
        omega
      have hmap := optionMap_renderFuel ih cs hcs
      simp [renderFuel, hmap, Component.render, concatAll_map_render]

theorem joinProps_none_cons (k : String) (ps : List (String × Option String)) :
    joinProps ((k, none) :: ps) = joinProps ps := by
  simp [joinProps, serializeProp]

theorem filterMap_serializeProp_filter (ps : List (String × Option String)) :
    ps.filterMap serializeProp =
      (ps.filter (fun kv => kv.2.isSome)).filterMap serializeProp := by
  induction ps with
  | nil => rfl
  | cons kv ps' ih =>
    rcases kv with ⟨k, v⟩
    cases v <;> simp [List.filter_cons, serializeProp, ih]

/-! ## Claim theorems -/

/-- C1 (code evidence): the claim says every node variant constructed
with `class_name="x"` renders `class="x"` and never `class_name="x"`.
The generic `Component.render` does serialize under the alias, but
`Text.render` (also inherited by `Heading`) dumps without
`by_alias=True`, so `Text(content="hi", class_name="x")` renders the
token `class_name="x"` and no `class="x"` at all — the code contradicts
the aliasing intent declared by `Field(alias="class")` on the very
field it prints. -/
theorem claim1_text_render_drops_class_alias :
    (mkComponent none (some "x") [] []).render = "<div class=\"x\"></div>" ∧
    (mkText "hi" none (some "x") [] []).render = "<span class_name=\"x\">hi</span>" ∧
    containsToken ((mkText "hi" none (some "x") [] []).render) "class_name=\"x\"" ∧
    ¬ containsToken ((mkText "hi" none (some "x") [] []).render) "class=\"x\"" := by
  exact ⟨rfl, rfl, by decide, by decide⟩

/-- C2 (counterexample): the example tree does not render to the
spec's expected string, because `Text.render` always puts a space
between the tag and its (here empty) attribute string. -/
theorem claim2_counterexample :
    (mkComponent (some "div") (some "a") [mkText "hello" none none [] []] []).render ≠
      "<div class=\"a\"><span>hello</span></div>" := by
  decide

/-- C2 (amended): `Component(tag="div", class_name="a",
children=[Text(content="hello")])` renders exactly
`<div class="a"><span >hello</span></div>` — as claimed except for the
space after `span` left by the empty attribute string. -/
theorem claim2_end_to_end_render :
    (mkComponent (some "div") (some "a") [mkText "hello" none none [] []] []).render =
      "<div class=\"a\"><span >hello</span></div>" := rfl

/-- C3 (counterexample): `Node(children=[A, B]).render()` is not
`"<tag>" + A.render() + B.render() + "</tag>"`: with both children the
default `Component()`, the outer opening tag is `<div >` (trailing
space from the empty attribute string), not `<div>`. -/
theorem claim3_counterexample :
    (mkComponent none none [mkComponent none none [] [], mkComponent none none [] []] []).render ≠
      "<div>" ++ (mkComponent none none [] []).render ++
        (mkComponent none none [] []).render ++ "</div>" := by
  decide

/-- C3 (amended): children are rendered in sequence order,
concatenated with no separator, and spliced between the opening and
closing tags; for a node with no set attributes the result is
`"<tag >" + A.render() + B.render() + "</tag>"` — the opening tag
carries the space left by the empty attribute string. -/
theorem claim3_children_in_order :
    ∀ (A B : Component) (tag : String),
      (Component.node tag [A, B] none []).render =
        "<" ++ tag ++ " >" ++ A.render ++ B.render ++ "</" ++ tag ++ ">" := by
  intro A B tag
  have hj : joinProps (dumpNode none []) = "" := rfl
  have hs : (" >" : String) = " " ++ ">" := rfl
  simp [Component.render, renderList, hj, hs, String.append_assoc,
    String.append_empty, String.empty_append]

/-- C4 (counterexample): the claim that
`TextNode(content="hi", children=[c]).render()` never contains
`c.render()`'s output fails for `c = Text(content="hi")`: the parent
renders `<span >hi</span>`, which is exactly `c.render()` — the child
is ignored, but the output still (coincidentally) contains the child's
render. -/
theorem claim4_counterexample :
    (mkText "hi" none none [mkText "hi" none none [] []] []).render =
      (mkText "hi" none none [] []).render ∧
    containsToken ((mkText "hi" none none [mkText "hi" none none [] []] []).render)
      ((mkText "hi" none none [] []).render) := by
  exact ⟨rfl, by decide⟩

/-- C4 (amended): `Text.render` ignores the `children` field entirely
— the output equals that of the same node with no children, and the
`content` is spliced verbatim between the tags (so the output contains
it); the child render is never invoked, though the output may still
coincide with text equal to a child's render. -/
theorem claim4_content_isolation :
    ∀ (content : String) (tg cn : Option String) (cs : List Component)
      (ex : List (String × String)),
      (mkText content tg cn cs ex).render = (mkText content tg cn [] ex).render ∧
      containsToken ((mkText content tg cn cs ex).render) content := by
  intro content tg cn cs ex
  refine ⟨rfl, ?_⟩
  unfold containsToken
  refine ⟨("<" ++ tg.getD "span" ++ " " ++ joinProps (dumpText cn ex) ++ ">").data,
    ("</" ++ tg.getD "span" ++ ">").data, ?_⟩
  simp [mkText, Component.render, String.data_append, List.append_assoc]

/-- C5: an unset (`None`) attribute is omitted entirely: serialization
filters out `None`-valued pairs (first conjunct), and a node of any
variant whose `class_name` is unset renders with an attribute string
built only from its remaining attributes — no `class` / `class_name`
token, no empty or `None` placeholder of any kind. -/
theorem claim5_unset_attributes_omitted :
    (∀ ps : List (String × Option String),
      joinProps ps = joinProps (ps.filter (fun kv => kv.2.isSome))) ∧
    (∀ tag cs ex, (Component.node tag cs none ex).render =
      "<" ++ tag ++ " " ++ joinProps (ex.map (fun kv => (kv.1, some kv.2))) ++ ">" ++
        renderList cs ++ "</" ++ tag ++ ">") ∧
    (∀ tag cs ex content, (Component.text tag cs none ex content).render =
      "<" ++ tag ++ " " ++ joinProps (ex.map (fun kv => (kv.1, some kv.2))) ++ ">" ++
        content ++ "</" ++ tag ++ ">") ∧
    (∀ tag cs ex content level, (Component.heading tag cs none ex content level).render =
      "<" ++ tag ++ " " ++
        joinProps (("level", some (toString level)) :: ex.map (fun kv => (kv.1, some kv.2))) ++
        ">" ++ content ++ "</" ++ tag ++ ">") := by
  refine ⟨?_, ?_, ?_, ?_⟩
  · intro ps
    unfold joinProps
    rw [filterMap_serializeProp_filter]
  · intro tag cs ex
    simp [Component.render, dumpNode, joinProps_none_cons]
  · intro tag cs ex content
    simp [Component.render, dumpText, joinProps_none_cons]
  · intro tag cs ex content level
    simp [Component.render, dumpHeading, joinProps_none_cons]

/-- C6: every successfully constructed `Heading` has its tag forced to
`h{level}` (a caller-supplied `tag` cannot change it: it makes the
constructor raise instead), `level` defaults to `1` when omitted, and
`Heading(content="x", level=3).render()` begins with `<h3` and ends
with `</h3>`. -/
theorem claim6_heading_tag_forced :
    (∀ (content : String) (level : Int) (tg cn : Option String)
       (cs : List Component) (ex : List (String × String)) (h : Component),
       callHeading (some content) (some level) tg cn cs ex = Except.ok h →
       tagOf h = "h" ++ toString level) ∧
    (∀ (content : String) (cn : Option String) (cs : List Component)
       (ex : List (String × String)),
       callHeading (some content) none none cn cs ex =
         Except.ok (mkHeading content 1 cn cs ex)) ∧
    beginsWith ((mkHeading "x" 3 none [] []).render) "<h3" ∧
    endsWith ((mkHeading "x" 3 none [] []).render) "</h3>" := by
  refine ⟨?_, ?_, by decide, by decide⟩
  · intro content level tg cn cs ex h heq
    cases tg with
    | some t => simp [callHeading] at heq
    | none =>
      simp [callHeading] at heq
      subst heq
      rfl
  · intro content cn cs ex
    rfl

/-- C6 witness: the first conjunct applied at the concrete call
`Heading(content="x", level=3)`. -/
theorem claim6_heading_tag_forced_witness :
    tagOf (mkHeading "x" 3 none [] []) = "h" ++ toString (3 : Int) :=
  claim6_heading_tag_forced.1 "x" 3 none none [] [] (mkHeading "x" 3 none [] []) rfl

/-- C7: `render` is total over every finite node tree: the fuel-bounded
evaluator mirroring the Python recursion succeeds (returns `some`)
once given fuel equal to the tree's height, and its value is exactly
`render`'s. -/
theorem claim7_render_total :
    ∀ c : Component, renderFuel (heightC c) c = some c.render := by
  intro c
  exact renderFuel_complete (heightC c) c (le_refl _)

/-- C8: every variant's render output is well-formed markup
`<tag attrs>inner</tag>`: the attribute string is the space-joined
serialization of the variant's dumped attributes, the closing tag name
is identical to the opening tag name, and the inner content is the
concatenated child renders for a generic node and the literal text
content for `Text`/`Heading`. -/
theorem claim8_render_wellformed :
    (∀ c : Component, c.render =
      "<" ++ tagOf c ++ " " ++ joinProps (attrsOf c) ++ ">" ++
        innerOf c ++ "</" ++ tagOf c ++ ">") ∧
    (∀ tag cs cn ex, innerOf (Component.node tag cs cn ex) = renderList cs) ∧
    (∀ tag cs cn ex content, innerOf (Component.text tag cs cn ex content) = content) ∧
    (∀ tag cs cn ex content level,
      innerOf (Component.heading tag cs cn ex content level) = content) := by
  refine ⟨?_, fun _ _ _ _ => rfl, fun _ _ _ _ _ => rfl, fun _ _ _ _ _ _ => rfl⟩
  intro c
  cases c <;> rfl

/-- C9: omitting the required `content` argument when constructing a
`Text` fails at the construction call site with an invalid-argument
error (`TypeError` in Python), never at render time; render itself is
total over every constructed tree. -/
theorem claim9_missing_content_is_construction_error :
    (∀ (tg cn : Option String) (cs : List Component) (ex : List (String × String)),
      callText none tg cn cs ex =
        Except.error (ConstructError.missingArgument "content")) ∧
    (∀ c : Component, ∃ s : String, renderFuel (heightC c) c = some s) := by
  refine ⟨fun _ _ _ _ => rfl, ?_⟩
  intro c
  exact ⟨c.render, renderFuel_complete (heightC c) c (le_refl _)⟩

/-- C10 (counterexample): `Heading(content="x", level=3).render()` does
not contain `level="3"`: the `level` field is never set from the
constructor argument, so the inherited render serializes the default
`level="1"`. -/
theorem claim10_counterexample :
    (mkHeading "x" 3 none [] []).render = "<h3 level=\"1\">x</h3>" ∧
    ¬ containsToken ((mkHeading "x" 3 none [] []).render) "level=\"3\"" := by
  exact ⟨rfl, by decide⟩

/-- C10 (amended): the inherited `Text.render` does emit the `level`
field as an HTML attribute (it excludes only `children`, `tag` and
`content` from the dump), but since `Heading.__init__` never forwards
its `level` argument to the field, the field is always the default `1`
and the output contains `level="1"` for every requested level. -/
theorem claim10_level_attribute_always_one :
    ∀ (content : String) (level : Int),
      levelOf (mkHeading content level none [] []) = some 1 ∧
      containsToken ((mkHeading content level none [] []).render) "level=\"1\"" := by
  intro content level
  refine ⟨rfl, ?_⟩
  unfold containsToken
  refine ⟨("<" ++ ("h" ++ toString level) ++ " ").data,
    (">" ++ content ++ "</" ++ ("h" ++ toString level) ++ ">").data, ?_⟩
  have hj : joinProps (dumpHeading none 1 []) = "level=\"1\"" := rfl
  simp [mkHeading, Component.render, hj, String.data_append, List.append_assoc]

end IHJS
